import Mathlib

/-!
# A verification development for the `spudbucket` form-validation library

Shallow embedding of `src/gigaspoon/validators.py` and `src/spudbucket/errors.py`.

Python's dynamically-typed form values are embedded as the inductive `Val`;
each validator class's `validate` method is embedded as a Lean function with
the same name (`Bool.validate`, `Length.validate`, ...); the composite
dispatcher `validate` covers the whole validator family, including the
structural validators `List`, `Dict` and `Map`, which recurse through the
chain runner `validate_item` (modelled from the spec, see below).

Python exceptions are embedded as the `Except` monad over the error type
`PyErr`.  Since a validator may mutate the value it is given in place
(structural validators update container slots), the composite `validate`
returns both the Python return value of the call and the value the caller's
reference sees after the call.
-/

namespace Spudbucket

/-- Embedding of the Python values form data is made of: strings, ints,
booleans, `None`, lists and dicts (dicts as insertion-ordered association
lists with unique keys, as in Python).  `Val.none` doubles as the implicit
`None` returned by a `validate` method that does not transform the value. -/
inductive Val where
  | str (s : String)
  | int (n : Int)
  | bool (b : Bool)
  | none
  | list (items : List Val)
  | dict (entries : List (String × Val))

/-- Embedding of a `socket.error` raised by `socket.inet_pton`: the library
call is external, so the error is modelled by its provenance (which address
family was being parsed) and the offending string. -/
inductive Exc where
  | sockErr (family : String) (value : String)
  | other (msg : String)
deriving DecidableEq

/-- Embedding of `spudbucket.errors.ValidationError` as constructed by
`Validator.raise_error(key, value, **kwargs)`: carries the key, the offending
value, the optional human-readable message and the optional wrapped causal
exception.  The `_validator` field (the validator instance itself) is not
modelled: no property stated here inspects it. -/
structure ValidationError where
  key : String
  value : Val
  message : Option String
  exception : Option Exc

/-- The errors a validation call can raise.  `validation` and `formKey` embed
the `FormError` subclasses from `src/spudbucket/errors.py` (`FormKeyError`
takes both a key and a form, per its `__init__(self, key, form)`);
`typeError` and `valueError` embed Python's built-in `TypeError` and
`ValueError`; `raw` is an arbitrary exception propagating out of a
user-supplied function uncaught. -/
inductive PyErr where
  | validation (e : ValidationError)
  | formKey (key : String) (form : Val)
  | typeError (msg : String)
  | valueError (msg : String)
  | attributeError (msg : String)
  | raw (e : Exc)

/-- Python truthiness (`bool(v)`) for the embedded values. -/
def truthy : Val → Bool
  | .none => false
  | .bool b => b
  | .int n => n != 0
  | .str s => !s.isEmpty
  | .list l => !l.isEmpty
  | .dict l => !l.isEmpty

/-- Python `len(v)` for the embedded values: defined on strings, lists and
dicts; `Option.none` stands for the `TypeError` raised on other values. -/
def pyLen : Val → Option Nat
  | .str s => some s.length
  | .list l => some l.length
  | .dict l => some l.length
  | _ => Option.none

/-- Model of Python `str.lower()` on the ASCII range (the only range the
validators compare against). -/
def pyLower (s : String) : String := ⟨s.data.map Char.toLower⟩

/-- Split a character list on a separator character, Python `str.split(sep)`
style: always returns at least one (possibly empty) piece. -/
def splitOnChar (c : Char) : List Char → List (List Char)
  | [] => [[]]
  | x :: xs =>
    if x = c then [] :: splitOnChar c xs
    else
      match splitOnChar c xs with
      | h :: t => (x :: h) :: t
      | [] => [[x]]

/-- Locate the first occurrence of `"::"` in a character list, returning the
pieces before and after it. -/
def splitDoubleColon : List Char → Option (List Char × List Char)
  | [] => Option.none
  | ':' :: ':' :: rest => some ([], rest)
  | x :: xs => (splitDoubleColon xs).map (fun p => (x :: p.1, p.2))

/-- Helper for `rpartition`: the pieces strictly before and strictly after
the last occurrence of `c`, if `c` occurs at all. -/
def rpartAux (c : Char) : List Char → Option (List Char × List Char)
  | [] => Option.none
  | x :: xs =>
    match rpartAux c xs with
    | some p => some (x :: p.1, p.2)
    | Option.none => if x = c then some ([], xs) else Option.none

/-- Model of Python `str.rpartition(sep)` for a one-character separator,
keeping only the head and tail pieces: splits at the LAST occurrence of `c`;
when `c` does not occur, Python returns `("", "", s)`, i.e. head piece empty
and tail piece the whole string. -/
def rpartition (c : Char) (s : List Char) : List Char × List Char :=
  match rpartAux c s with
  | some p => p
  | Option.none => ([], s)

/-- Decimal value of a digit string. -/
def digitsVal (l : List Char) : Nat :=
  l.foldl (fun acc c => acc * 10 + (c.toNat - '0'.toNat)) 0

/-- A valid dotted-quad field for `inet_pton(AF_INET, ...)`: one to three
digits, no leading zero (the strict glibc behaviour; the class docstring
notes leading-zero acceptance is system-dependent), value at most 255. -/
def isIPv4Octet (l : List Char) : Bool :=
  decide (1 ≤ l.length) && decide (l.length ≤ 3) && l.all Char.isDigit &&
    (decide (l.length = 1) || decide (l.headD '0' ≠ '0')) && decide (digitsVal l ≤ 255)

/-- Model of the external library call `socket.inet_pton(socket.AF_INET, s)`:
`true` iff the call succeeds, i.e. `s` is a strict dotted-quad IPv4 address. -/
def inet_pton4 (s : List Char) : Bool :=
  let parts := splitOnChar '.' s
  decide (parts.length = 4) && parts.all isIPv4Octet

/-- A valid 16-bit hexadecimal group of an IPv6 address: one to four hex
digits. -/
def isH16 (l : List Char) : Bool :=
  decide (1 ≤ l.length) && decide (l.length ≤ 4) &&
    l.all (fun c => c.isDigit || ('a' ≤ c && c ≤ 'f') || ('A' ≤ c && c ≤ 'F'))

/-- Count the 16-bit groups in a colon-separated tail of an IPv6 address:
every group must be a hex group, except that the final group may instead be
an embedded dotted-quad IPv4 address, which counts as two groups.  `none`
means some group is invalid. -/
def tailGroups : List (List Char) → Option Nat
  | [] => some 0
  | [g] =>
    if isH16 g then some 1
    else if inet_pton4 g then some 2
    else Option.none
  | g :: rest => if isH16 g then (tailGroups rest).map (· + 1) else Option.none

/-- Model of the external library call `socket.inet_pton(socket.AF_INET6, s)`:
`true` iff `s` is a valid IPv6 address — eight 16-bit groups, with at most
one `::` compressing one or more zero groups, and an optional embedded
dotted-quad tail. -/
def inet_pton6 (s : List Char) : Bool :=
  match splitDoubleColon s with
  | Option.none =>
    match tailGroups (splitOnChar ':' s) with
    | some n => decide (n = 8)
    | Option.none => false
  | some (l, r) =>
    match splitDoubleColon r with
    | some _ => false
    | Option.none =>
      let lgs := if l.isEmpty then [] else splitOnChar ':' l
      let rgs := if r.isEmpty then [] else splitOnChar ':' r
      lgs.all isH16 &&
        (match tailGroups rgs with
         | some n => decide (lgs.length + n ≤ 7)
         | Option.none => false)

/-- The external parsing functions the `Date` and `Time` validators call:
`datetime.date.fromisoformat`, `datetime.datetime.strptime(...).date()`, and
their time counterparts.  A parser returns the parsed object as a `Val`, or
`none` for the `ValueError` the library raises on a malformed input.  They
are kept abstract: no claim depends on the calendar itself. -/
structure Ext where
  strptimeDate : String → String → Option Val
  isoDate : String → Option Val
  strptimeTime : String → String → Option Val
  isoTime : String → Option Val

/-- An `Ext` whose parsers reject every input; used to instantiate theorems
whose statements do not depend on the parsers. -/
def extNone : Ext :=
  ⟨fun _ _ => Option.none, fun _ => Option.none, fun _ _ => Option.none, fun _ => Option.none⟩

mutual

/-- Python `==` on embedded values.  Deviation kept deliberately small: dict
comparison is order-sensitive here (Python's is not), and `True == 1` style
cross-type numeric equality is not modelled; it is used only for
`LambdaFilter`'s `matches` comparison, which no claim exercises on dicts. -/
def valBEq : Val → Val → Bool
  | .str a, .str b => a == b
  | .int a, .int b => a == b
  | .bool a, .bool b => a == b
  | .none, .none => true
  | .list l1, .list l2 => valBEqList l1 l2
  | .dict d1, .dict d2 => valBEqDict d1 d2
  | _, _ => false

/-- Elementwise `valBEq` on lists. -/
def valBEqList : List Val → List Val → Bool
  | [], [] => true
  | a :: l1, b :: l2 => valBEq a b && valBEqList l1 l2
  | _, _ => false

/-- Entrywise `valBEq` on association lists. -/
def valBEqDict : List (String × Val) → List (String × Val) → Bool
  | [], [] => true
  | (k1, v1) :: d1, (k2, v2) :: d2 => k1 == k2 && valBEq v1 v2 && valBEqDict d1 d2
  | _, _ => false

end

/-- Embedding of `Bool.validate` from `src/gigaspoon/validators.py`: the
value is lowercased, matched against the textual boolean forms, and the
boolean is returned as the transformed value; anything else raises a
`ValidationError` (carrying the lowercased local `value`, which the method
reassigned before raising).  A non-string value would fail the `.lower()`
attribute access. -/
def Bool.validate (key : String) (value : Val) : Except PyErr Val :=
  match value with
  | .str s =>
    let v := pyLower s
    if v ∈ ["yes", "true", "on"] then .ok (.bool true)
    else if v ∈ ["no", "false", "off"] then .ok (.bool false)
    else .error (.validation ⟨key, .str v, some "Value does not appear to be a bool", Option.none⟩)
  | _ => .error (.attributeError "value has no attribute lower")

/-- Python truthiness of the `fmt` argument (`if fmt:`): `None` and the
empty string are falsy. -/
def fmtTruthy : Option String → Bool
  | Option.none => false
  | some s => !s.isEmpty

/-- Embedding of `Date.validate`: in ISO mode the value must satisfy
`datetime.date.fromisoformat`, otherwise it must parse via
`datetime.datetime.strptime` with the stored format; the parsed object is
returned.  Only `ValueError` is caught; a non-string value raises a
`TypeError` out of the library call. -/
def Date.validate (ext : Ext) (format : Option String) (use_isoformat : Bool)
    (key : String) (value : Val) : Except PyErr Val :=
  if use_isoformat then
    match value with
    | .str s =>
      match ext.isoDate s with
      | some d => .ok d
      | Option.none =>
        .error (.validation ⟨key, value, some "invalid value for ISO date format", Option.none⟩)
    | _ => .error (.typeError "fromisoformat argument must be str")
  else
    match format with
    | some f =>
      match value with
      | .str s =>
        match ext.strptimeDate f s with
        | some d => .ok d
        | Option.none =>
          .error (.validation ⟨key, value, some ("invalid value for format " ++ f), Option.none⟩)
      | _ => .error (.typeError "strptime argument must be str")
    | Option.none => .error (.valueError "Neither a format nor use_isoformat exist.")

/-- Embedding of `Time.validate`: as `Date.validate`, with the time parsers. -/
def Time.validate (ext : Ext) (format : Option String) (use_isoformat : Bool)
    (key : String) (value : Val) : Except PyErr Val :=
  if use_isoformat then
    match value with
    | .str s =>
      match ext.isoTime s with
      | some t => .ok t
      | Option.none =>
        .error (.validation ⟨key, value, some "invalid value for ISO time format", Option.none⟩)
    | _ => .error (.typeError "fromisoformat argument must be str")
  else
    match format with
    | some f =>
      match value with
      | .str s =>
        match ext.strptimeTime f s with
        | some t => .ok t
        | Option.none =>
          .error (.validation ⟨key, value, some ("invalid value for format " ++ f), Option.none⟩)
      | _ => .error (.typeError "strptime argument must be str")
    | Option.none => .error (.valueError "Neither a format nor use_isoformat exist.")

/-- Embedding of `Email.validate`: split on the last `@` via `rpartition`;
reject when the head piece contains another `@`, or either piece is empty;
with a configured domain, additionally reject when the tail piece differs
from it.  Successful validation returns `None` (no transform). -/
def Email.validate (domain : Option String) (key : String) (value : Val) : Except PyErr Val :=
  match value with
  | .str s =>
    let p := rpartition '@' s.data
    if p.1.contains '@' || p.1.isEmpty || p.2.isEmpty then
      .error (.validation ⟨key, .str s, some "invalid email", Option.none⟩)
    else
      match domain with
      | some d =>
        if p.2 ≠ d.data then
          .error (.validation ⟨key, .str s, some ("invalid domain (" ++ d ++ ")"), Option.none⟩)
        else .ok .none
      | Option.none => .ok .none
  | _ => .error (.attributeError "value has no attribute rpartition")

/-- Embedding of `Exists.validate`: a no-op. -/
def Exists.validate (_key : String) (_value : Val) : Except PyErr Val := .ok .none

/-- The default `address_type` of `IPAddress.__init__`. -/
def IPAddress.defaultType : List String := ["ipv4"]

/-- Embedding of `IPAddress.validate`, with its `dirty`/`error` state
threaded explicitly: `dirty` starts true and is cleared by the first family
that parses; a failed IPv4 parse stores its error; a failed IPv6 parse
overwrites the stored error whenever `dirty` is still set.  When `dirty`
survives both branches the stored error is raised as the wrapped exception
of a `ValidationError`. -/
def IPAddress.validate (address_type : List String) (key : String) (value : Val) :
    Except PyErr Val :=
  match value with
  | .str s =>
    let st : Bool × Option Exc := (true, Option.none)
    let st : Bool × Option Exc :=
      if "ipv4" ∈ address_type then
        if inet_pton4 s.data then (false, st.2) else (st.1, some (.sockErr "ipv4" s))
      else st
    let st : Bool × Option Exc :=
      if "ipv6" ∈ address_type then
        if inet_pton6 s.data then (false, st.2)
        else if st.1 then (st.1, some (.sockErr "ipv6" s)) else st
      else st
    if st.1 then .error (.validation ⟨key, .str s, Option.none, st.2⟩) else .ok .none
  | _ => .error (.typeError "inet_pton argument must be str")

/-- The `"value too %s (%s %s %s)"` message of `Length.validate`. -/
def lenMsg (word : String) (length : Nat) (cmp : String) (bound : Int) : String :=
  "value too " ++ word ++ " (" ++ toString length ++ " " ++ cmp ++ " " ++ toString bound ++ ")"

/-- Embedding of `Length.validate`: with the value's `len`, check the
optional inclusive minimum first (raising the "too short" message), then the
optional inclusive maximum (raising the "too long" message). -/
def Length.validate (min max : Option Int) (key : String) (value : Val) : Except PyErr Val :=
  match pyLen value with
  | Option.none => .error (.typeError "object has no len")
  | some length =>
    let maxCheck : Except PyErr Val :=
      match max with
      | some mx =>
        if (length : Int) > mx then
          .error (.validation ⟨key, value, some (lenMsg "long" length ">" mx), Option.none⟩)
        else .ok .none
      | Option.none => .ok .none
    match min with
    | some mn =>
      if (length : Int) < mn then
        .error (.validation ⟨key, value, some (lenMsg "short" length "<" mn), Option.none⟩)
      else maxCheck
    | Option.none => maxCheck

/-- Embedding of `Regex.validate`.  The compiled pattern is external
(`re.compile`), so it is embedded as an abstract match-at-start predicate
together with the pattern text used as the error message. -/
def Regex.validate (pattern : String → Bool) (patternStr : String) (key : String)
    (value : Val) : Except PyErr Val :=
  match value with
  | .str s =>
    if !(pattern s) then
      .error (.validation ⟨key, .str s, some patternStr, Option.none⟩)
    else .ok .none
  | _ => .error (.typeError "expected string or bytes-like object")

/-- Embedding of `Select.validate`: membership of the value in the option
set (options are the strings the validator was configured with). -/
def Select.validate (options : List String) (key : String) (value : Val) : Except PyErr Val :=
  if options.any (fun o => valBEq value (.str o)) then .ok .none
  else .error (.validation ⟨key, value, Option.none, Option.none⟩)

/-- Embedding of `LambdaMap.validate`: run the wrapped function; its return
value is the method's return value, and ANY exception it raises is caught
and rewrapped as a `ValidationError` carrying it as the causal exception. -/
def LambdaMap.validate (f : Val → Except Exc Val) (key : String) (value : Val) :
    Except PyErr Val :=
  match f value with
  | .ok r => .ok r
  | .error exc => .error (.validation ⟨key, value, Option.none, some exc⟩)

/-- The `matches` argument of `LambdaFilter`: one of the four sentinel
objects, or a plain value compared with `==`. -/
inductive LFMode where
  | truthy
  | falsy
  | isNone
  | notNone
  | matchesVal (w : Val)

/-- Embedding of `LambdaFilter.validate`.  The source evaluates
`self._lambda(value)` once in each condition it reaches; the embedded
function is deterministic, so the model evaluates it once — an exception it
raises propagates uncaught, and otherwise the first matching mode check
decides the outcome exactly as the source's `if`/`elif` chain does. -/
def LambdaFilter.validate (f : Val → Except Exc Val) (m : LFMode) (key : String)
    (value : Val) : Except PyErr Val :=
  match f value with
  | .error exc => .error (.raw exc)
  | .ok r =>
    match m with
    | .isNone =>
      match r with
      | .none => .ok .none
      | _ => .error (.validation ⟨key, value, some "failed to match NONE", Option.none⟩)
    | .notNone =>
      match r with
      | .none => .error (.validation ⟨key, value, some "failed to match NOTNONE", Option.none⟩)
      | _ => .ok .none
    | .truthy =>
      if truthy r then .ok .none
      else .error (.validation ⟨key, value, some "failed to match TRUTHY", Option.none⟩)
    | .falsy =>
      if !(truthy r) then .ok .none
      else .error (.validation ⟨key, value, some "failed to match FALSY", Option.none⟩)
    | .matchesVal w =>
      if valBEq r w then .ok .none
      else .error (.validation ⟨key, value, some "failed to match value", Option.none⟩)

/-- The validator family of `src/gigaspoon/validators.py`, one constructor
per class, holding the configuration its `__init__` stores.  A
"validator-or-list-of-validators" configuration value is held in its
normalized form (the one-element list for a single validator), the
normalization `wrap_validator_list`/the runner would apply.  The external
pieces of `Regex` (the compiled pattern) and of the lambda validators (the
user function) are abstract function fields. -/
inductive Validator where
  | Bool
  | Date (format : Option String) (use_isoformat : Bool) (keep_date_object : Bool)
  | Time (format : Option String) (use_isoformat : Bool) (keep_time_object : Bool)
  | Email (domain : Option String)
  | Exists
  | IPAddress (address_type : List String)
  | Length (min max : Option Int)
  | Regex (pattern : String → Bool) (patternStr : String)
  | Select (options : List String)
  | LambdaMap (f : Val → Except Exc Val)
  | LambdaFilter (f : Val → Except Exc Val) (m : LFMode)
  | List (validator : List Validator)
  | Dict (fields : List (String × List Validator))
  | Map (validator : List Validator)

/-- Embedding of `Date.__init__`: a truthy (non-empty) `fmt` wins and clears
ISO mode; otherwise `use_isoformat` selects ISO mode; otherwise the
constructor raises `ValueError`. -/
def Date.init (fmt : Option String) (keep_date_object : Bool) (use_isoformat : Bool) :
    Except PyErr Validator :=
  if fmtTruthy fmt then .ok (.Date fmt false keep_date_object)
  else if use_isoformat then .ok (.Date Option.none true keep_date_object)
  else .error (.valueError "Neither a format nor use_isoformat was used.")

/-- Embedding of `Time.__init__`: same shape as `Date.__init__`. -/
def Time.init (fmt : Option String) (keep_time_object : Bool) (use_isoformat : Bool) :
    Except PyErr Validator :=
  if fmtTruthy fmt then .ok (.Time fmt false keep_time_object)
  else if use_isoformat then .ok (.Time Option.none true keep_time_object)
  else .error (.valueError "Neither a format nor use_isoformat was used.")

/-- The message of the `TypeError` Python raises at the missing-key branch of
`Dict.validate`: the branch executes `raise e.FormKeyError(f"{key}.{dict_key}")`,
but `FormKeyError.__init__(self, key, form)` in `src/spudbucket/errors.py`
requires both arguments, so the constructor call itself fails with a
`TypeError` before any `FormKeyError` exists. -/
def formKeyErrorArityMsg : String :=
  "FormKeyError init missing 1 required positional argument: form"

/-- Replace the value stored under a key of an embedded dict (Python
`value[k] = v` for a present key). -/
def updateEntry : List (String × Val) → String → Val → List (String × Val)
  | [], _, _ => []
  | (k, v) :: rest, dk, nv =>
    if k = dk then (k, nv) :: rest else (k, v) :: updateEntry rest dk nv

mutual

/-- Embedding of `validate` dispatched over the validator family.  The
result pairs the Python return value of the call (`Val.none` for an implicit
`return None`) with the value the caller's reference sees afterwards, so
that the in-place updates the structural validators perform on list slots
and dict entries are observable.  Leaf validators never mutate their input. -/
def validate (ext : Ext) : Validator → String → Val → Except PyErr (Val × Val)
  | .Bool, key, value => (Bool.validate key value).map (fun r => (r, value))
  | .Date fmt iso _keep, key, value => (Date.validate ext fmt iso key value).map (fun r => (r, value))
  | .Time fmt iso _keep, key, value => (Time.validate ext fmt iso key value).map (fun r => (r, value))
  | .Email d, key, value => (Email.validate d key value).map (fun r => (r, value))
  | .Exists, key, value => (Exists.validate key value).map (fun r => (r, value))
  | .IPAddress t, key, value => (IPAddress.validate t key value).map (fun r => (r, value))
  | .Length mn mx, key, value => (Length.validate mn mx key value).map (fun r => (r, value))
  | .Regex p ps, key, value => (Regex.validate p ps key value).map (fun r => (r, value))
  | .Select opts, key, value => (Select.validate opts key value).map (fun r => (r, value))
  | .LambdaMap f, key, value => (LambdaMap.validate f key value).map (fun r => (r, value))
  | .LambdaFilter f m, key, value => (LambdaFilter.validate f m key value).map (fun r => (r, value))
  | .List vs, key, value =>
    match value with
    | .list items => (listGo ext vs key 0 items).map (fun items2 => (Val.none, Val.list items2))
    | _ => .error (.validation ⟨key, value, some "Form field is not a list", Option.none⟩)
  | .Dict fields, key, value =>
    match value with
    | .dict entries => (dictGo ext fields key entries).map (fun es => (Val.none, Val.dict es))
    | _ => .error (.validation ⟨key, value, some "Form field is not a dict", Option.none⟩)
  | .Map vs, key, value =>
    match value with
    | .dict entries => (mapGo ext vs key entries).map (fun es => (Val.none, Val.dict es))
    | _ => .error (.validation ⟨key, value, some "Form field is not a dict", Option.none⟩)

/-- Modelled from the spec: the chain loop of the validation runner
`u.validate_item` (§4.4 of the spec; module `u` is not among the source
files).  Iterates the validators in order over the current value; a raised
error propagates immediately; a non-`None` return becomes the current value
and marks the chain as replaced. -/
def viGo (ext : Ext) : List Validator → String → Val → Bool → Except PyErr (Val × Val)
  | [], _, cur, replaced => .ok (if replaced then (cur, cur) else (Val.none, cur))
  | v :: vs, path, cur, replaced => do
    let r ← validate ext v path cur
    match r.1 with
    | .none => viGo ext vs path r.2 replaced
    | _ => viGo ext vs path r.1 true

/-- Modelled from the spec: the validation runner `u.validate_item`
(§4.4).  Returns the final replacement value (or `Val.none` as the
"unchanged" marker) paired with the value the caller's reference sees
afterwards. -/
def validate_item (ext : Ext) (vs : List Validator) (path : String) (value : Val) :
    Except PyErr (Val × Val) :=
  viGo ext vs path value false

/-- The element loop of `List.validate`: apply the configured chain to every
element, with key path `key[index]`; a non-`None` chain result replaces the
slot, and otherwise the slot keeps the (possibly mutated in place) element. -/
def listGo (ext : Ext) (vs : List Validator) (key : String) (idx : Nat) :
    List Val → Except PyErr (List Val)
  | [] => .ok []
  | x :: xs => do
    let r ← validate_item ext vs (key ++ "[" ++ toString idx ++ "]") x
    let x2 := match r.1 with
      | .none => r.2
      | o => o
    let rest ← listGo ext vs key (idx + 1) xs
    .ok (x2 :: rest)

/-- The key loop of `Dict.validate`: for each configured key, a missing key
executes `raise e.FormKeyError(f"{key}.{dict_key}")` — which fails with a
`TypeError` because `FormKeyError.__init__` also requires the `form`
argument (see `formKeyErrorArityMsg`) — and a present key has the configured
chain applied to its value at key path `key.dict_key`, updating the entry. -/
def dictGo (ext : Ext) (fields : List (String × List Validator)) (key : String)
    (entries : List (String × Val)) : Except PyErr (List (String × Val)) :=
  match fields with
  | [] => .ok entries
  | (dk, vs) :: rest =>
    match entries.lookup dk with
    | Option.none => .error (.typeError formKeyErrorArityMsg)
    | some dv => do
      let r ← validate_item ext vs (key ++ "." ++ dk) dv
      let nv := match r.1 with
        | .none => r.2
        | o => o
      dictGo ext rest key (updateEntry entries dk nv)

/-- The entry loop of `Map.validate`: apply the configured chain to every
value of the dict, with key path `key[map_key]`, updating the entry. -/
def mapGo (ext : Ext) (vs : List Validator) (key : String) :
    List (String × Val) → Except PyErr (List (String × Val))
  | [] => .ok []
  | (mk, mv) :: rest => do
    let r ← validate_item ext vs (key ++ "[" ++ mk ++ "]") mv
    let mv2 := match r.1 with
      | .none => r.2
      | o => o
    let rest2 ← mapGo ext vs key rest
    .ok ((mk, mv2) :: rest2)

end

/-- Insert a string into an ascending list. -/
def insertSorted (s : String) : List String → List String
  | [] => [s]
  | x :: xs => if s ≤ x then s :: x :: xs else x :: insertSorted s xs

/-- Ascending insertion sort on strings. -/
def sortStrs : List String → List String
  | [] => []
  | x :: xs => insertSorted x (sortStrs xs)

/-- Keep the first occurrence of each string (helper, with the already-seen
strings accumulated). -/
def dedupAux (seen : List String) : List String → List String
  | [] => []
  | x :: xs => if seen.contains x then dedupAux seen xs else x :: dedupAux (x :: seen) xs

/-- Keep the first occurrence of each string. -/
def dedupStrs (l : List String) : List String := dedupAux [] l

/-- An optional string as a Python value (`None` or the string). -/
def optStr : Option String → Val
  | Option.none => .none
  | some s => .str s

/-- An optional integer as a Python value. -/
def optInt : Option Int → Val
  | Option.none => .none
  | some n => .int n

mutual

/-- Embedding of `populate` dispatched over the validator family: the
metadata mapping each class reports for UI hinting.  Classes without an
override inherit `Validator.populate`, which returns `{}`.  `Select` reports
its options deduplicated (`set(options)`) and sorted. -/
def populate : Validator → String → Val
  | .Bool, _ => .dict []
  | .Date fmt iso _keep, _ => .dict [("fmt", optStr fmt), ("use_isoformat", .bool iso)]
  | .Time fmt iso _keep, _ => .dict [("fmt", optStr fmt), ("use_isoformat", .bool iso)]
  | .Email d, _ => .dict [("domain", optStr d)]
  | .Exists, _ => .dict []
  | .IPAddress t, _ => .dict [("type", .list (t.map .str))]
  | .Length mn mx, _ => .dict [("min", optInt mn), ("max", optInt mx)]
  | .Regex _ ps, _ => .dict [("pattern", .str ps)]
  | .Select opts, _ => .dict [("options", .list ((sortStrs (dedupStrs opts)).map .str))]
  | .LambdaMap _, _ => .dict []
  | .LambdaFilter _ _, _ => .dict []
  | .List vs, name => .dict [("validators", .list (popList vs (name ++ "[]")))]
  | .Dict fields, name => .dict (popFields fields name)
  | .Map vs, name => .dict [("validators", .list (popList vs (name ++ "\x7b\x7d")))]

/-- `[v.populate(childName) for v in validators]`. -/
def popList : List Validator → String → List Val
  | [], _ => []
  | v :: vs, name => populate v name :: popList vs name

/-- The per-key loop of `Dict.populate`. -/
def popFields : List (String × List Validator) → String → List (String × Val)
  | [], _ => []
  | (dk, vs) :: rest, name =>
    (dk, .list (popList vs (name ++ "." ++ dk))) :: popFields rest name

end

/-- State-passing form of `validate`: the result of the call paired with the
validator instance as it stands after the call.  Every `validate` body in
the source reads `self` but contains no assignment to any `self` field, so
each branch hands back the instance with exactly the configuration fields it
was called with. -/
def validateSt (ext : Ext) (v : Validator) (key : String) (value : Val) :
    Except PyErr (Val × Val) × Validator :=
  match v with
  | .Bool => (validate ext .Bool key value, .Bool)
  | .Date fmt iso keep => (validate ext (.Date fmt iso keep) key value, .Date fmt iso keep)
  | .Time fmt iso keep => (validate ext (.Time fmt iso keep) key value, .Time fmt iso keep)
  | .Email d => (validate ext (.Email d) key value, .Email d)
  | .Exists => (validate ext .Exists key value, .Exists)
  | .IPAddress t => (validate ext (.IPAddress t) key value, .IPAddress t)
  | .Length mn mx => (validate ext (.Length mn mx) key value, .Length mn mx)
  | .Regex p ps => (validate ext (.Regex p ps) key value, .Regex p ps)
  | .Select opts => (validate ext (.Select opts) key value, .Select opts)
  | .LambdaMap f => (validate ext (.LambdaMap f) key value, .LambdaMap f)
  | .LambdaFilter f m => (validate ext (.LambdaFilter f m) key value, .LambdaFilter f m)
  | .List vs => (validate ext (.List vs) key value, .List vs)
  | .Dict fields => (validate ext (.Dict fields) key value, .Dict fields)
  | .Map vs => (validate ext (.Map vs) key value, .Map vs)

/-- State-passing form of `populate`, in the same sense as `validateSt`:
no `populate` body in the source assigns to any `self` field. -/
def populateSt (v : Validator) (name : String) : Val × Validator :=
  match v with
  | .Bool => (populate .Bool name, .Bool)
  | .Date fmt iso keep => (populate (.Date fmt iso keep) name, .Date fmt iso keep)
  | .Time fmt iso keep => (populate (.Time fmt iso keep) name, .Time fmt iso keep)
  | .Email d => (populate (.Email d) name, .Email d)
  | .Exists => (populate .Exists name, .Exists)
  | .IPAddress t => (populate (.IPAddress t) name, .IPAddress t)
  | .Length mn mx => (populate (.Length mn mx) name, .Length mn mx)
  | .Regex p ps => (populate (.Regex p ps) name, .Regex p ps)
  | .Select opts => (populate (.Select opts) name, .Select opts)
  | .LambdaMap f => (populate (.LambdaMap f) name, .LambdaMap f)
  | .LambdaFilter f m => (populate (.LambdaFilter f m) name, .LambdaFilter f m)
  | .List vs => (populate (.List vs) name, .List vs)
  | .Dict fields => (populate (.Dict fields) name, .Dict fields)
  | .Map vs => (populate (.Map vs) name, .Map vs)

/-!
## Theorems

One theorem per claim of the specification review, in claim order.
-/

/-- Claim C1 (settled as a code bug, with the code evaluated at the failing
input): for a `Dict` validator with a configured key absent from the value,
`validate` does NOT raise a `FormKeyError` — the `raise e.FormKeyError(...)`
statement passes one argument to a two-argument `__init__`, so a `TypeError`
escapes instead.  When the configured key is present, the configured
validator runs on its value and the call succeeds with no error at all. -/
theorem dict_missing_key_typeerror :
    validate extNone (.Dict [("x", [.Exists])]) "key" (.dict []) =
      .error (.typeError formKeyErrorArityMsg) ∧
    validate extNone (.Dict [("x", [.Exists])]) "key" (.dict [("x", .int 1)]) =
      .ok (.none, .dict [("x", .int 1)]) := by
  constructor
  · simp [validate, dictGo, Except.map]
  · simp [validate, dictGo, validate_item, viGo, Exists.validate, Except.map,
      updateEntry, List.lookup, Except.bind, bind, pure, Except.pure]

/-- Claim C2, counterexample to the claim as stated: with both families
requested and a value (`"999.1.1.1"`) that parses as neither, the raised
`ValidationError` does NOT carry the IPv4 parse failure as its wrapped
exception. -/
theorem ipaddress_first_error_cex :
    ¬ (IPAddress.validate ["ipv4", "ipv6"] "k" (.str "999.1.1.1") =
        .error (.validation ⟨"k", .str "999.1.1.1", Option.none,
          some (.sockErr "ipv4" "999.1.1.1")⟩)) := by
  intro h
  have h2 : IPAddress.validate ["ipv4", "ipv6"] "k" (.str "999.1.1.1") =
      .error (.validation ⟨"k", .str "999.1.1.1", Option.none,
        some (.sockErr "ipv6" "999.1.1.1")⟩) := by
    unfold IPAddress.validate
    simp [show inet_pton4 "999.1.1.1".data = false from rfl,
      show inet_pton6 "999.1.1.1".data = false from rfl]
  have h3 := h2.symm.trans h
  simp at h3

/-- Claim C2 as amended: for every `IPAddress` validator whose requested
families include both `"ipv4"` and `"ipv6"`, and every value that fails to
parse as both families, the raised validation failure carries the LAST
parse failure — the IPv6 error — as its wrapped exception (the IPv6 branch
overwrites the stored IPv4 error while `dirty` is still set). -/
theorem ipaddress_both_fail_keeps_ipv6_error (address_type : List String) (key s : String)
    (h4 : "ipv4" ∈ address_type) (h6 : "ipv6" ∈ address_type)
    (p4 : inet_pton4 s.data = false) (p6 : inet_pton6 s.data = false) :
    IPAddress.validate address_type key (.str s) =
      .error (.validation ⟨key, .str s, Option.none, some (.sockErr "ipv6" s)⟩) := by
  unfold IPAddress.validate
  simp [h4, h6, p4, p6]

/-- Witness for the amended claim C2 at the concrete input `"999.1.1.1"`
with both families requested. -/
theorem ipaddress_both_fail_keeps_ipv6_error_witness :
    IPAddress.validate ["ipv4", "ipv6"] "k" (.str "999.1.1.1") =
      .error (.validation ⟨"k", .str "999.1.1.1", Option.none,
        some (.sockErr "ipv6" "999.1.1.1")⟩) :=
  ipaddress_both_fail_keeps_ipv6_error ["ipv4", "ipv6"] "k" "999.1.1.1"
    (by decide) (by decide) (by decide) (by decide)

/-- Claim C3: `IPAddress.validate` succeeds (returning `None`) exactly when
the value parses as at least one requested family; the default construction
requests only `"ipv4"`, under which `"127.0.0.1"` passes and `"::1"` fails;
`"::1"` passes once `"ipv6"` is requested; `"999.1.1.1"` fails for both
families. -/
theorem ipaddress_any_family (address_type : List String) (key s : String) :
    (IPAddress.validate address_type key (.str s) = .ok .none ↔
      (("ipv4" ∈ address_type ∧ inet_pton4 s.data = true) ∨
       ("ipv6" ∈ address_type ∧ inet_pton6 s.data = true))) ∧
    IPAddress.defaultType = ["ipv4"] ∧
    IPAddress.validate IPAddress.defaultType key (.str "127.0.0.1") = .ok .none ∧
    (∃ e, IPAddress.validate IPAddress.defaultType key (.str "::1") = .error (.validation e)) ∧
    IPAddress.validate ["ipv4", "ipv6"] key (.str "::1") = .ok .none ∧
    (∃ e, IPAddress.validate ["ipv4", "ipv6"] key (.str "999.1.1.1") = .error (.validation e)) := by
  refine ⟨?_, rfl, ?_,
    ⟨⟨key, .str "::1", Option.none, some (.sockErr "ipv4" "::1")⟩, ?_⟩, ?_,
    ⟨⟨key, .str "999.1.1.1", Option.none, some (.sockErr "ipv6" "999.1.1.1")⟩, ?_⟩⟩
  · unfold IPAddress.validate
    by_cases h4 : "ipv4" ∈ address_type <;> by_cases h6 : "ipv6" ∈ address_type <;>
      cases hp4 : inet_pton4 s.data <;> cases hp6 : inet_pton6 s.data <;>
      simp_all
  all_goals simp [IPAddress.validate, IPAddress.defaultType,
    show inet_pton4 "127.0.0.1".data = true from rfl,
    show inet_pton4 "::1".data = false from rfl,
    show inet_pton6 "::1".data = true from rfl,
    show inet_pton4 "999.1.1.1".data = false from rfl,
    show inet_pton6 "999.1.1.1".data = false from rfl]

/-- Claim C4: `Bool.validate` returns `True` exactly when the lowercased
value is one of yes/true/on, `False` exactly when it is one of no/false/off,
and raises a `ValidationError` exactly otherwise. -/
theorem bool_validate_partitions (key s : String) :
    (Bool.validate key (.str s) = .ok (.bool true) ↔ pyLower s ∈ ["yes", "true", "on"]) ∧
    (Bool.validate key (.str s) = .ok (.bool false) ↔ pyLower s ∈ ["no", "false", "off"]) ∧
    ((∃ e, Bool.validate key (.str s) = .error (.validation e)) ↔
      (pyLower s ∉ ["yes", "true", "on"] ∧ pyLower s ∉ ["no", "false", "off"])) := by
  unfold Bool.validate
  by_cases h1 : pyLower s ∈ ["yes", "true", "on"] <;>
    by_cases h2 : pyLower s ∈ ["no", "false", "off"] <;>
    simp_all
  rcases h1 with h | h | h <;> simp_all

/-- Claim C5: `Length.validate`, on a sized value, fails exactly when the
length is strictly below the configured minimum or strictly above the
configured maximum; the minimum check runs first and reports the "too
short" message, the maximum check reports the "too long" message, and
lengths within the inclusive bounds pass. -/
theorem length_validate_bounds (mn mx : Option Int) (key : String) (value : Val) (n : Nat)
    (h : pyLen value = some n) :
    (∀ m, mn = some m → (n : Int) < m →
      Length.validate mn mx key value =
        .error (.validation ⟨key, value, some (lenMsg "short" n "<" m), Option.none⟩)) ∧
    (∀ M, mx = some M → (∀ m, mn = some m → m ≤ (n : Int)) → M < (n : Int) →
      Length.validate mn mx key value =
        .error (.validation ⟨key, value, some (lenMsg "long" n ">" M), Option.none⟩)) ∧
    ((∀ m, mn = some m → m ≤ (n : Int)) → (∀ M, mx = some M → (n : Int) ≤ M) →
      Length.validate mn mx key value = .ok .none) ∧
    ((∃ e, Length.validate mn mx key value = .error e) ↔
      ((∃ m, mn = some m ∧ (n : Int) < m) ∨ (∃ M, mx = some M ∧ M < (n : Int)))) := by
  unfold Length.validate
  rw [h]
  rcases mn with _ | m <;> rcases mx with _ | M <;>
    simp_all <;> split_ifs <;> simp_all

/-- Witness for claim C5 with `min=2`, `max=4`: length 1 fails "too short",
length 3 passes, length 5 fails "too long". -/
theorem length_validate_bounds_witness :
    Length.validate (some 2) (some 4) "k" (.str "a") =
      .error (.validation ⟨"k", .str "a", some (lenMsg "short" 1 "<" 2), Option.none⟩) ∧
    Length.validate (some 2) (some 4) "k" (.str "abc") = .ok .none ∧
    Length.validate (some 2) (some 4) "k" (.str "abcde") =
      .error (.validation ⟨"k", .str "abcde", some (lenMsg "long" 5 ">" 4), Option.none⟩) :=
  ⟨(length_validate_bounds (some 2) (some 4) "k" (.str "a") 1 rfl).1 2 rfl (by decide),
   (length_validate_bounds (some 2) (some 4) "k" (.str "abc") 3 rfl).2.2.1
     (by intro m hm; cases hm; decide) (by intro M hM; cases hM; decide),
   (length_validate_bounds (some 2) (some 4) "k" (.str "abcde") 5 rfl).2.1 4 rfl
     (by intro m hm; cases hm; decide) (by decide)⟩

/-- Claim C6: `Email.validate` splits on the last `@` and succeeds — with no
replacement value — exactly when the piece before it contains no further
`@`, neither piece is empty, and, when a domain is configured, the piece
after it equals that domain exactly; every failure is a `ValidationError`. -/
theorem email_validate_characterization (domain : Option String) (key s : String) :
    (Email.validate domain key (.str s) = .ok .none ↔
      ((rpartition '@' s.data).1.contains '@' = false ∧
       (rpartition '@' s.data).1 ≠ [] ∧
       (rpartition '@' s.data).2 ≠ [] ∧
       (match domain with
        | Option.none => True
        | some d => (rpartition '@' s.data).2 = d.data))) ∧
    ((∃ e, Email.validate domain key (.str s) = .error (.validation e)) ↔
      ¬ ((rpartition '@' s.data).1.contains '@' = false ∧
         (rpartition '@' s.data).1 ≠ [] ∧
         (rpartition '@' s.data).2 ≠ [] ∧
         (match domain with
          | Option.none => True
          | some d => (rpartition '@' s.data).2 = d.data))) := by
  unfold Email.validate
  rcases domain with _ | d <;> dsimp only <;> split_ifs <;>
    simp_all [List.isEmpty_iff, not_or] <;> tauto

/-- Claim C7: `LambdaMap.validate` returns whatever the wrapped function
returns when it does not raise, and converts ANY exception the function
raises into a `ValidationError` wrapping it as the causal exception, instead
of letting it propagate. -/
theorem lambdamap_wraps (f : Val → Except Exc Val) (key : String) (value : Val) :
    (∀ r, f value = .ok r → LambdaMap.validate f key value = .ok r) ∧
    (∀ exc, f value = .error exc →
      LambdaMap.validate f key value =
        .error (.validation ⟨key, value, Option.none, some exc⟩)) := by
  unfold LambdaMap.validate
  constructor
  · intro r hr; rw [hr]
  · intro exc hexc; rw [hexc]

/-- Witness for claim C7: a returning function's value is passed through; a
raising function's exception is wrapped. -/
theorem lambdamap_wraps_witness :
    LambdaMap.validate (fun v => .ok v) "k" (.int 3) = .ok (.int 3) ∧
    LambdaMap.validate (fun _ => .error (.other "boom")) "k" (.int 3) =
      .error (.validation ⟨"k", .int 3, Option.none, some (.other "boom")⟩) :=
  ⟨(lambdamap_wraps (fun v => .ok v) "k" (.int 3)).1 (.int 3) rfl,
   (lambdamap_wraps (fun _ => .error (.other "boom")) "k" (.int 3)).2 (.other "boom") rfl⟩

/-- Claim C8: every validator of the family — whose configuration in this
embedding is pure, matching the claim's restriction to pure configurations —
leaves its instance fields untouched under both `validate` and `populate`
(the state-passing forms hand back the identical instance), and a second
call on the handed-back instance with the same key and value produces the
identical outcome, replacement value included. -/
theorem validators_stateless (ext : Ext) (v : Validator) (key : String) (value : Val)
    (name : String) :
    (validateSt ext v key value).2 = v ∧
    (populateSt v name).2 = v ∧
    (validateSt ext ((validateSt ext v key value).2) key value).1 =
      (validateSt ext v key value).1 ∧
    (populateSt ((populateSt v name).2) name).1 = (populateSt v name).1 := by
  have h1 : (validateSt ext v key value).2 = v := by cases v <;> rfl
  have h2 : (populateSt v name).2 = v := by cases v <;> rfl
  exact ⟨h1, h2, by rw [h1], by rw [h2]⟩

/-- Claim C9: constructing `Date` or `Time` with a non-empty format string
AND `use_isoformat=True` stores the format with the ISO flag cleared, and
the resulting configuration's `validate` is exactly the format-string
(`strptime`) branch — it never consults the ISO parser, as witnessed by its
independence from the `isoformat` component of the external parsers. -/
theorem date_time_format_overrides_iso (s : String) (hs : s ≠ "") (keep : Bool) :
    Date.init (some s) keep true = .ok (.Date (some s) false keep) ∧
    Time.init (some s) keep true = .ok (.Time (some s) false keep) ∧
    (∀ ext key value,
      Date.validate ext (some s) false key value =
        (match value with
         | .str v =>
           (match ext.strptimeDate s v with
            | some d => .ok d
            | Option.none =>
              .error (.validation
                ⟨key, value, some ("invalid value for format " ++ s), Option.none⟩))
         | _ => .error (.typeError "strptime argument must be str"))) ∧
    (∀ ext1 ext2 key value, ext1.strptimeDate = ext2.strptimeDate →
      Date.validate ext1 (some s) false key value =
        Date.validate ext2 (some s) false key value) ∧
    (∀ ext key value,
      Time.validate ext (some s) false key value =
        (match value with
         | .str v =>
           (match ext.strptimeTime s v with
            | some t => .ok t
            | Option.none =>
              .error (.validation
                ⟨key, value, some ("invalid value for format " ++ s), Option.none⟩))
         | _ => .error (.typeError "strptime argument must be str"))) ∧
    (∀ ext1 ext2 key value, ext1.strptimeTime = ext2.strptimeTime →
      Time.validate ext1 (some s) false key value =
        Time.validate ext2 (some s) false key value) := by
  refine ⟨?_, ?_, ?_, ?_, ?_, ?_⟩
  · unfold Date.init
    simp [fmtTruthy, String.isEmpty_iff, hs]
  · unfold Time.init
    simp [fmtTruthy, String.isEmpty_iff, hs]
  · intro ext key value; unfold Date.validate; rfl
  · intro ext1 ext2 key value h; unfold Date.validate; simp [h]
  · intro ext key value; unfold Time.validate; rfl
  · intro ext1 ext2 key value h; unfold Time.validate; simp [h]

/-- Witness for claim C9 at the concrete format `"%Y"`. -/
theorem date_time_format_overrides_iso_witness :
    Date.init (some "%Y") false true = .ok (.Date (some "%Y") false false) ∧
    Time.init (some "%Y") false true = .ok (.Time (some "%Y") false false) :=
  ⟨(date_time_format_overrides_iso "%Y" (by decide) false).1,
   (date_time_format_overrides_iso "%Y" (by decide) false).2.1⟩

/-- Claim C10: when `Bool.validate` rejects a string, the `ValidationError`
carries the LOWERCASED form of the input as its offending value (the method
reassigned its local `value` before raising). -/
theorem bool_error_lowercased (key s : String)
    (h1 : pyLower s ∉ ["yes", "true", "on"]) (h2 : pyLower s ∉ ["no", "false", "off"]) :
    Bool.validate key (.str s) =
      .error (.validation ⟨key, .str (pyLower s),
        some "Value does not appear to be a bool", Option.none⟩) := by
  unfold Bool.validate
  simp [h1, h2]

/-- Witness for claim C10 at `"MAYBE"`: the carried value is `"maybe"`, not
the original `"MAYBE"`. -/
theorem bool_error_lowercased_witness :
    Bool.validate "k" (.str "MAYBE") =
      .error (.validation ⟨"k", .str "maybe",
        some "Value does not appear to be a bool", Option.none⟩) ∧
    Val.str "maybe" ≠ Val.str "MAYBE" :=
  ⟨(bool_error_lowercased "k" "MAYBE" (by decide) (by decide)).trans rfl, by simp⟩

end Spudbucket
